import Mathlib

/-!
# Device plugin protocol server: a shallow embedding

Lean model of `pkg/deviceplugin/server.go`, `pkg/common/device/device.go` and
`pkg/common/device/cambricon/cambricon.go`, followed by theorems about the
health-update path, allocation, the lifecycle (`Start`, `Stop`, `Serve`) and
the Cambricon hardware binding.
-/

set_option autoImplicit false

namespace DevicePlugin

/-! ## Data model -/

/-- The two fields of `pluginapi.Device` that the server reads and writes. `Health` is a string in
the kubelet API (`pluginapi.Healthy = "Healthy"`, `pluginapi.Unhealthy = "Unhealthy"`). -/
structure Device where
  ID : String
  Health : String
  deriving DecidableEq, Repr

/-- Constant `pluginapi.Healthy`. -/
def Healthy : String := "Healthy"

/-- Constant `pluginapi.Unhealthy`. -/
def Unhealthy : String := "Unhealthy"

/-! ## ListAndWatch (server.go, lines 168-185) -/

/-- The inner loop of `ListAndWatch` (server.go, lines 176-181):
`for i, dev := range m.devs { if dev.ID == d.ID { m.devs[i].Health = d.Health; break } }`.
The first record whose id matches gets the new health; the `break` leaves the rest alone. -/
def applyHealth : List Device → Device → List Device
  | [], _ => []
  | dev :: rest, d =>
    if dev.ID = d.ID then { dev with Health := d.Health } :: rest
    else dev :: applyHealth rest d

/-- What the `select` of `ListAndWatch` can receive: the closed `m.stop` channel or a value from
`m.health`. -/
inductive Signal where
  | stop
  | health (d : Device)
  deriving DecidableEq, Repr

/-- Observable state of one `ListAndWatch` call: the device list `m.devs`, the responses handed to
`server.Send` so far (oldest first) and whether the call has returned. -/
structure Watch where
  devs : List Device
  sent : List (List Device)
  returned : Bool
  deriving DecidableEq, Repr

/-- The `for { select { ... } }` loop of `ListAndWatch` run on a finite sequence of received
signals. On `stop` the call returns `nil`; on a health value the list is updated and sent in full.
When the signals run out the call is blocked in `select` (`returned = false`). -/
def watchLoop : List Signal → Watch → Watch
  | [], w => w
  | Signal.stop :: _, w => { w with returned := true }
  | Signal.health d :: rest, w =>
    let devs := applyHealth w.devs d
    watchLoop rest { devs := devs, sent := w.sent ++ [devs], returned := false }

/-- `Server.ListAndWatch`: send the current list, then run the loop. -/
def ListAndWatch (devs : List Device) (signals : List Signal) : Watch :=
  watchLoop signals { devs := devs, sent := [devs], returned := false }

/-- One record after an update addressed to its id: what `applyHealth` does to every record
when ids are pairwise distinct (proof device, not part of the source). -/
def setHealth (d : Device) (dev : Device) : Device :=
  if dev.ID = d.ID then { dev with Health := d.Health } else dev

/-- Several open `ListAndWatch` calls on one server: the shared list `m.devs` and, per open
stream, the responses sent on it so far. -/
structure Hub where
  devs : List Device
  streams : List (List (List Device))
  deriving DecidableEq, Repr

/-- A new `ListAndWatch` call (line 169): the current list is sent on the new stream. -/
def openStream (h : Hub) : Hub :=
  { h with streams := h.streams ++ [[h.devs]] }

/-- Append one response to the stream at position `i`, leaving the other streams alone. -/
def sendOn (resp : List Device) : Nat → List (List (List Device)) → List (List (List Device))
  | _, [] => []
  | 0, st :: rest => (st ++ [resp]) :: rest
  | i + 1, st :: rest => st :: sendOn resp i rest

/-- One value `d` sent on the unbuffered channel `m.health` while several `ListAndWatch` calls
wait in `select`: a Go channel hands each value to exactly one receiver, here the call at
position `i`, which runs lines 176-182 (update the shared list, send it on its own stream). -/
def receiveHealth (i : Nat) (d : Device) (h : Hub) : Hub :=
  let devs := applyHealth h.devs d
  { devs := devs, streams := sendOn devs i h.streams }

/-! ## Allocate (server.go, lines 191-201) -/

/-- Fields `ContainerPath`, `HostPath`, `Permissions` of `pluginapi.DeviceSpec`. -/
structure DeviceSpec where
  ContainerPath : String
  HostPath : String
  Permissions : String
  deriving DecidableEq, Repr

/-- Fields `ContainerPath`, `HostPath`, `ReadOnly` of `pluginapi.Mount`. -/
structure Mount where
  ContainerPath : String
  HostPath : String
  ReadOnly : Bool
  deriving DecidableEq, Repr

/-- The fields of `pluginapi.ContainerAllocateResponse` that the repository fills. -/
structure ContainerAllocateResponse where
  Devices : List DeviceSpec
  Mounts : List Mount
  deriving DecidableEq, Repr

/-- Type `pluginapi.ContainerAllocateRequest`. -/
structure ContainerAllocateRequest where
  DevicesIDs : List String
  deriving DecidableEq, Repr

/-- Type `pluginapi.AllocateRequest`. -/
structure AllocateRequest where
  ContainerRequests : List ContainerAllocateRequest
  deriving DecidableEq, Repr

/-- Type `pluginapi.AllocateResponse`. -/
structure AllocateResponse where
  ContainerResponses : List ContainerAllocateResponse
  deriving DecidableEq, Repr

/-- The `for _, req := range request.ContainerRequests` loop of `Allocate`: the first grant that
fails returns `nil, err` at once, otherwise the grant is appended to `responses`. `grant` stands
for the interface method `m.device.GetContainerAllocateResponse`. -/
def allocateLoop (grant : List String → Except String ContainerAllocateResponse) :
    List ContainerAllocateRequest → AllocateResponse → Except String AllocateResponse
  | [], responses => Except.ok responses
  | req :: rest, responses =>
    match grant req.DevicesIDs with
    | Except.error err => Except.error err
    | Except.ok car =>
      allocateLoop grant rest { ContainerResponses := responses.ContainerResponses ++ [car] }

/-- `Server.Allocate`. -/
def Allocate (grant : List String → Except String ContainerAllocateResponse)
    (request : AllocateRequest) : Except String AllocateResponse :=
  allocateLoop grant request.ContainerRequests { ContainerResponses := [] }

/-! ## The Cambricon binding (cambricon.go) -/

/-- Constant `mluDeviceNamePrefix`. -/
def mluDeviceNamePrefix : String := "/dev/cambricon_dev"

/-- Constant `mluMonitorDeviceName`. -/
def mluMonitorDeviceName : String := "/dev/cambricon_ctl"

/-- Constant `cnmonPath`. -/
def cnmonPath : String := "/usr/bin/cnmon"

/-- `hostDeviceExistsWithPrefix`: `glob` stands for `filepath.Glob` on the host; a glob error is
logged and answered `false`. -/
def hostDeviceExistsWithPrefix (glob : String → Except String (List String))
    (pfx : String) : Bool :=
  match glob (pfx ++ "*") with
  | Except.error _ => false
  | Except.ok matched => decide (matched.length > 0)

/-- The `for idx, id := range ids` loop of `GetContainerAllocateResponse`; `idx` is the loop
index and `devices` is `r.Devices`. `%d` of a non-negative `int` is its decimal rendering. -/
def appendDevices : List String → Nat → List DeviceSpec → List DeviceSpec
  | [], _, devices => devices
  | id :: rest, idx, devices =>
    appendDevices rest (idx + 1)
      (devices ++ [{ HostPath := mluDeviceNamePrefix ++ id,
                     ContainerPath := mluDeviceNamePrefix ++ toString idx,
                     Permissions := "rw" }])

/-- `Cambricon.GetContainerAllocateResponse`. -/
def GetContainerAllocateResponse (glob : String → Except String (List String))
    (ids : List String) : Except String ContainerAllocateResponse :=
  let devices : List DeviceSpec :=
    if hostDeviceExistsWithPrefix glob mluMonitorDeviceName then
      [{ HostPath := mluMonitorDeviceName, ContainerPath := mluMonitorDeviceName,
         Permissions := "rw" }]
    else []
  let devices := appendDevices ids 0 devices
  let mounts : List Mount :=
    [] ++ [{ ContainerPath := cnmonPath, HostPath := cnmonPath, ReadOnly := true }]
  Except.ok { Devices := devices, Mounts := mounts }

/-- Type `device.DeviceInfo` (device.go). -/
structure DeviceInfo where
  Id : String
  deriving DecidableEq, Repr

/-- The conversion `int(count)` of a Go `uint` on a 64-bit platform (two-complement wrap). -/
def uintToInt (count : Nat) : Int :=
  if count % 2 ^ 64 < 2 ^ 63 then ((count % 2 ^ 64 : Nat) : Int)
  else ((count % 2 ^ 64 : Nat) : Int) - 2 ^ 64

/-- The loop `for i := 0; i < int(count); i++` of `GetDeviceInfo`, by the number of iterations
still to run; `i` is the loop variable and `devs` the slice built so far. -/
def deviceInfoLoop : Nat → Nat → List DeviceInfo → List DeviceInfo
  | 0, _, devs => devs
  | k + 1, i, devs => deviceInfoLoop k (i + 1) (devs ++ [{ Id := toString i }])

/-- `Cambricon.GetDeviceInfo`; `count` is what `GetDeviceCount` returned (the `number` field of
`cndevCardInfo_t` as a `uint`, or the cndev error). The loop runs `int(count)` times, not at all
when that is negative. The capacity hint of `make` is not modelled. -/
def GetDeviceInfo (count : Except String Nat) : Except String (List DeviceInfo) :=
  match count with
  | Except.error err => Except.error err
  | Except.ok count => Except.ok (deviceInfoLoop (uintToInt count).toNat 0 [])

/-! ## The server and its host (server.go) -/

/-- The fields of the Go struct `Server` that the lifecycle reads and writes: `devs`, `server`
(`none` is `nil`, `some h` a gRPC server with handle `h`) and whether the channel `stop` has been
closed. The socket path is the constant `ServerSock`. -/
structure Server where
  devs : List Device
  server : Option Nat
  stopClosed : Bool
  deriving DecidableEq, Repr

/-- What the lifecycle touches outside the struct. `sockFile` is the file at the path `m.socket`
(`none`: no such file, `some h`: the socket file bound by listener `h`); `dirWritable` tells
whether entries can be created and removed in its directory; `serving` lists the gRPC servers
whose `Serve` goroutine is running (each on its own listener, numbered like the server);
`released` counts calls of `device.Release`; `nextHandle` numbers the next gRPC server. The
filesystem is closed: during a run only the calls of the server itself change it. -/
structure Host where
  sockFile : Option Nat
  dirWritable : Bool
  serving : List Nat
  released : Nat
  nextHandle : Nat
  deriving DecidableEq, Repr

/-- A server together with its host. -/
structure State where
  m : Server
  host : Host
  deriving DecidableEq, Repr

/-- `NewServer`: `newCambricon` is the error of `cambricon.NewCambricon`, if any, and `count`
what `GetDeviceCount` returns. Every enumerated device is advertised as healthy; the channels
are fresh and `server` is nil. -/
def NewServer (newCambricon : Option String) (count : Except String Nat) :
    Except String Server :=
  match newCambricon with
  | some err => Except.error err
  | none =>
    match GetDeviceInfo count with
    | Except.error err => Except.error err
    | Except.ok deviceInfos =>
      Except.ok { devs := deviceInfos.map (fun info => { ID := info.Id, Health := Healthy }),
                  server := none, stopClosed := false }

/-- Result of `os.Remove`. -/
inductive RemoveResult where
  | removed
  | notExist
  | failed (err : String)
  deriving DecidableEq, Repr

/-- `os.Remove(m.socket)`: a missing file gives the not-exist error, a file in a directory that
cannot be written stays and gives another error, otherwise the file is removed. -/
def osRemove (h : Host) : RemoveResult × Host :=
  match h.sockFile with
  | none => (RemoveResult.notExist, h)
  | some _ =>
    if h.dirWritable then (RemoveResult.removed, { h with sockFile := none })
    else (RemoveResult.failed "remove: permission denied", h)

/-- `Server.cleanup`: `if err := os.Remove(m.socket); err != nil && !os.IsNotExist(err)`. -/
def cleanup (h : Host) : Option String × Host :=
  match osRemove h with
  | (RemoveResult.failed err, h1) => (some err, h1)
  | (_, h1) => (none, h1)

/-- `net.Listen("unix", m.socket)`: `fail` is a failure of the call for a reason outside the
model; otherwise binding needs the path to be free and the directory writable, and creates the
socket file of a new listener. -/
def netListen (fail : Option String) (h : Host) : Except String (Nat × Host) :=
  match fail with
  | some err => Except.error err
  | none =>
    match h.sockFile with
    | some _ => Except.error "listen: address already in use"
    | none =>
      if h.dirWritable then
        Except.ok (h.nextHandle,
          { h with sockFile := some h.nextHandle, nextHandle := h.nextHandle + 1 })
      else Except.error "listen: permission denied"

/-- Outcomes of the calls that `Start` makes and that the model does not decide: a failure of
`net.Listen` for an outside reason, and the error of the blocking self-dial (timeout). -/
structure StartEnv where
  listenErr : Option String
  dialErr : Option String
  deriving DecidableEq, Repr

/-- `Server.Start`, returning the error (`none` is `nil`) and the state it leaves. -/
def Start (env : StartEnv) (s : State) : Option String × State :=
  match cleanup s.host with
  | (some err, h1) => (some err, { s with host := h1 })
  | (none, h1) =>
    match netListen env.listenErr h1 with
    | Except.error err => (some err, { s with host := h1 })
    | Except.ok (sock, h2) =>
      -- m.server = grpc.NewServer(...); go m.server.Serve(sock)
      let s1 : State :=
        { m := { s.m with server := some sock },
          host := { h2 with serving := h2.serving ++ [sock] } }
      match env.dialErr with
      | some err => (some err, s1)
      | none => (none, s1)

/-- How a call that may panic ends. -/
inductive Outcome where
  | returned (err : Option String) (s : State)
  | panicked (s : State)
  deriving DecidableEq, Repr

/-- `m.server.Stop()` on the gRPC server `h` (server.go, line 109): the server stops serving and
closes its listener. Closing a unix listener made by `net.Listen` unlinks the socket path; that
unlink reports no error, so in a directory that cannot be written the file just stays. -/
def grpcStop (h : Nat) (host : Host) : Host :=
  { host with serving := host.serving.filter (fun x => x ≠ h),
              sockFile := if host.dirWritable then none else host.sockFile }

/-- `Server.Stop`. `m.server.Stop()` ends the serving of that gRPC server and unlinks its socket;
`close(m.stop)` panics when the channel is closed already; the error of `m.device.Release()` is
dropped. -/
def Stop (s : State) : Outcome :=
  match s.m.server with
  | none => Outcome.returned none s
  | some h =>
    let host1 : Host := grpcStop h s.host
    let m1 : Server := { s.m with server := none }
    if m1.stopClosed then Outcome.panicked { m := m1, host := host1 }
    else
      let m2 : Server := { m1 with stopClosed := true }
      let host2 : Host := { host1 with released := host1.released + 1 }
      match cleanup host2 with
      | (err, host3) => Outcome.returned err { m := m2, host := host3 }

/-- Outcomes of the outside calls of one `Serve`: those of `Start` and the error of `Register`
(dial of the kubelet socket or the `Register` RPC). -/
structure ServeEnv where
  start : StartEnv
  registerErr : Option String
  deriving DecidableEq, Repr

/-- `Server.Serve`. -/
def Serve (env : ServeEnv) (s : State) : Outcome :=
  match Start env.start s with
  | (some err, s1) => Outcome.returned (some ("start device plugin err: " ++ err)) s1
  | (none, s1) =>
    match env.registerErr with
    | some err =>
      match Stop s1 with
      | Outcome.panicked s2 => Outcome.panicked s2
      | Outcome.returned _ s2 =>
        Outcome.returned
          (some ("register resource openi.pcl.ac.cn/cambricon err: " ++ err)) s2
    | none => Outcome.returned none s1

/-- A host on which nothing has run yet: no socket file, a writable directory. -/
def freshHost : Host :=
  { sockFile := none, dirWritable := true, serving := [], released := 0, nextHandle := 0 }

/-- The server that `NewServer` builds for two devices, on a fresh host. -/
def freshState : State :=
  { m := { devs := [⟨"0", Healthy⟩, ⟨"1", Healthy⟩], server := none, stopClosed := false },
    host := freshHost }

/-- A mock Device Capability: the grant for the id list ["1"] fails, any other list gets one
device mapping named after its ids. -/
def mockGrant (ids : List String) : Except String ContainerAllocateResponse :=
  if ids = ["1"] then Except.error "grant failed"
  else
    Except.ok
      { Devices := [DeviceSpec.mk "/dev/mock" (String.append "/dev/mock" (String.join ids)) "rw"],
        Mounts := [] }

/-- The batch of the allocation scenario: one container asking for "0", one for "1". -/
def scenarioRequest : AllocateRequest :=
  AllocateRequest.mk [ContainerAllocateRequest.mk ["0"], ContainerAllocateRequest.mk ["1"]]

/-- Value of a string of decimal digits, most significant first (proof device for the
injectivity of the decimal rendering). -/
def digitsValue (cs : List Char) : Nat :=
  cs.foldl (fun acc c => acc * 10 + (c.toNat - 48)) 0

/-- The device mapping of the monitor device in a grant. -/
def monitorSpec : DeviceSpec :=
  { HostPath := mluMonitorDeviceName, ContainerPath := mluMonitorDeviceName, Permissions := "rw" }

/-- The device mapping of the requested id `id` at position `j` of the request. -/
def mluSpec (j : Nat) (id : String) : DeviceSpec :=
  { HostPath := mluDeviceNamePrefix ++ id, ContainerPath := mluDeviceNamePrefix ++ toString j,
    Permissions := "rw" }

/-- A server on which `Start` has got as far as serving and `Stop` has not been called: `server`
holds the gRPC server `h`, that server is serving, its socket file sits at the endpoint path, and
`h` is a handle that has been given out. -/
def Started (s : State) (h : Nat) : Prop :=
  s.m.server = some h ∧ h ∈ s.host.serving ∧ s.host.sockFile = some h ∧ h < s.host.nextHandle

/-- Outside calls that all succeed. -/
def okStart : StartEnv := { listenErr := none, dialErr := none }

/-- A `Serve` whose `Start` succeeds and whose registration with the kubelet fails. -/
def registerFails : ServeEnv :=
  { start := okStart, registerErr := some "kubelet unreachable" }

/-- A `Start` whose bind succeeds and whose self-dial times out. -/
def dialTimesOut : StartEnv :=
  { listenErr := none, dialErr := some "context deadline exceeded" }

/-- The server of `freshState` after one successful `Start`. -/
def startedState : State :=
  { m := { devs := [⟨"0", Healthy⟩, ⟨"1", Healthy⟩], server := some 0, stopClosed := false },
    host := { sockFile := some 0, dirWritable := true, serving := [0], released := 0,
              nextHandle := 1 } }

/-- The server of `freshState` after one `Serve` whose registration failed (so `Stop` ran). -/
def stoppedState : State :=
  { m := { devs := [⟨"0", Healthy⟩, ⟨"1", Healthy⟩], server := none, stopClosed := true },
    host := { sockFile := none, dirWritable := true, serving := [], released := 1,
              nextHandle := 1 } }

/-- Two open `ListAndWatch` streams on the two devices of the scenario. -/
def twoStreams : Hub :=
  openStream (openStream { devs := [⟨"0", Healthy⟩, ⟨"1", Healthy⟩], streams := [] })

/-! ## Lemmas on the health-update step -/

theorem setHealth_ID (d dev : Device) : (setHealth d dev).ID = dev.ID := by
  unfold setHealth; split <;> rfl

theorem applyHealth_ids (devs : List Device) (d : Device) :
    (applyHealth devs d).map Device.ID = devs.map Device.ID := by
  induction devs with
  | nil => rfl
  | cons dev rest ih =>
    unfold applyHealth
    split
    · simp
    · simp [ih]

theorem applyHealth_of_not_mem (devs : List Device) (d : Device)
    (h : d.ID ∉ devs.map Device.ID) : applyHealth devs d = devs := by
  induction devs with
  | nil => rfl
  | cons dev rest ih =>
    simp only [List.map_cons, List.mem_cons, not_or] at h
    unfold applyHealth
    rw [if_neg (fun e => h.1 e.symm), ih h.2]

theorem map_setHealth_of_not_mem (devs : List Device) (d : Device)
    (h : d.ID ∉ devs.map Device.ID) : devs.map (setHealth d) = devs := by
  induction devs with
  | nil => rfl
  | cons dev rest ih =>
    simp only [List.map_cons, List.mem_cons, not_or] at h
    simp only [List.map_cons, ih h.2]
    unfold setHealth
    rw [if_neg (fun e => h.1 e.symm)]

theorem applyHealth_nodup (devs : List Device) (d : Device)
    (hnd : (devs.map Device.ID).Nodup) : applyHealth devs d = devs.map (setHealth d) := by
  induction devs with
  | nil => rfl
  | cons dev rest ih =>
    simp only [List.map_cons, List.nodup_cons] at hnd
    unfold applyHealth
    by_cases e : dev.ID = d.ID
    · rw [if_pos e]
      have hnot : d.ID ∉ rest.map Device.ID := e ▸ hnd.1
      simp only [List.map_cons, map_setHealth_of_not_mem rest d hnot]
      simp [setHealth, e]
    · rw [if_neg e, ih hnd.2]
      simp [setHealth, e]

theorem foldl_applyHealth_ids (us : List Device) (devs : List Device) :
    (us.foldl applyHealth devs).map Device.ID = devs.map Device.ID := by
  induction us generalizing devs with
  | nil => rfl
  | cons u rest ih => simp only [List.foldl_cons]; rw [ih, applyHealth_ids]

theorem foldl_applyHealth_nodup (us : List Device) (devs : List Device)
    (hnd : (devs.map Device.ID).Nodup) :
    us.foldl applyHealth devs = devs.map (fun dev => us.foldl (fun x u => setHealth u x) dev) := by
  induction us generalizing devs with
  | nil => simp
  | cons u rest ih =>
    simp only [List.foldl_cons]
    rw [ih _ (by rw [applyHealth_ids]; exact hnd), applyHealth_nodup devs u hnd, List.map_map]
    rfl

theorem foldl_setHealth_ID (us : List Device) (dev : Device) :
    (us.foldl (fun x u => setHealth u x) dev).ID = dev.ID := by
  induction us generalizing dev with
  | nil => rfl
  | cons u rest ih => simp only [List.foldl_cons]; rw [ih, setHealth_ID]

theorem foldl_setHealth_untouched (us : List Device) (dev : Device)
    (h : ∀ u ∈ us, u.ID ≠ dev.ID) : us.foldl (fun x u => setHealth u x) dev = dev := by
  induction us with
  | nil => rfl
  | cons u rest ih =>
    simp only [List.foldl_cons]
    have hu : u.ID ≠ dev.ID := h u (List.mem_cons_self _ _)
    have : setHealth u dev = dev := by
      unfold setHealth; rw [if_neg (fun e => hu e.symm)]
    rw [this]
    exact ih (fun v hv => h v (List.mem_cons_of_mem _ hv))

theorem foldl_setHealth_last (pre post : List Device) (u dev : Device)
    (hu : u.ID = dev.ID) (hpost : ∀ v ∈ post, v.ID ≠ dev.ID) :
    ((pre ++ u :: post).foldl (fun x v => setHealth v x) dev).Health = u.Health := by
  rw [List.foldl_append, List.foldl_cons]
  have hid : (pre.foldl (fun x v => setHealth v x) dev).ID = dev.ID := foldl_setHealth_ID pre dev
  have hset : (setHealth u (pre.foldl (fun x v => setHealth v x) dev)).Health = u.Health := by
    generalize pre.foldl (fun x v => setHealth v x) dev = x at hid
    simp only [setHealth]; rw [if_pos (hid.trans hu.symm)]
  have hid2 : (setHealth u (pre.foldl (fun x v => setHealth v x) dev)).ID = dev.ID := by
    rw [setHealth_ID, hid]
  rw [foldl_setHealth_untouched post _ (fun v hv => by rw [hid2]; exact hpost v hv), hset]

/-- The loop on health signals only: the list is the fold of the update step, one full list is
sent per signal, and the call stays blocked. -/
theorem watchLoop_health (us : List Device) (w : Watch) (hr : w.returned = false) :
    (watchLoop (us.map Signal.health) w).devs = us.foldl applyHealth w.devs ∧
    (watchLoop (us.map Signal.health) w).sent.length = w.sent.length + us.length ∧
    (w.sent.getLast? = some w.devs →
      (watchLoop (us.map Signal.health) w).sent.getLast?
        = some (watchLoop (us.map Signal.health) w).devs) ∧
    (watchLoop (us.map Signal.health) w).returned = false := by
  induction us generalizing w with
  | nil => simp [watchLoop, hr]
  | cons u rest ih =>
    simp only [List.map_cons, watchLoop, List.foldl_cons]
    obtain ⟨h1, h2, h3, h4⟩ := ih
      { devs := applyHealth w.devs u, sent := w.sent ++ [applyHealth w.devs u], returned := false }
      rfl
    refine ⟨h1, ?_, ?_, h4⟩
    · rw [h2]; simp; omega
    · intro _; exact h3 (by simp)

theorem watchLoop_append_health (us : List Device) (d : Device) (w : Watch) :
    watchLoop (us.map Signal.health ++ [Signal.health d]) w =
      { devs := applyHealth (watchLoop (us.map Signal.health) w).devs d,
        sent := (watchLoop (us.map Signal.health) w).sent
          ++ [applyHealth (watchLoop (us.map Signal.health) w).devs d],
        returned := false } := by
  induction us generalizing w with
  | nil => simp [watchLoop]
  | cons u rest ih =>
    show watchLoop (List.map Signal.health rest ++ [Signal.health d]) _ = _
    rw [ih]; rfl

/-! ## Health updates: membership fixed, latest update wins -/

/-- C1. For a device list with pairwise distinct ids and any finite sequence `us` of health
updates received by `ListAndWatch`, the call is still blocked, the last list sent is the current
list, it has as many entries as the advertised list with the same ids in the same order, an entry
whose id no update references keeps its health, and an entry whose id is referenced has the health
of the last update in `us` carrying that id. -/
theorem listAndWatch_latest_health_wins (devs us : List Device)
    (hnd : (devs.map Device.ID).Nodup) :
    (ListAndWatch devs (us.map Signal.health)).returned = false ∧
    (ListAndWatch devs (us.map Signal.health)).sent.length = us.length + 1 ∧
    (ListAndWatch devs (us.map Signal.health)).sent.getLast?
      = some (ListAndWatch devs (us.map Signal.health)).devs ∧
    (ListAndWatch devs (us.map Signal.health)).devs.length = devs.length ∧
    (ListAndWatch devs (us.map Signal.health)).devs.map Device.ID = devs.map Device.ID ∧
    ∀ (i : Nat) (hi : i < devs.length)
      (ho : i < (ListAndWatch devs (us.map Signal.health)).devs.length),
      ((∀ u ∈ us, u.ID ≠ devs[i].ID) →
        (ListAndWatch devs (us.map Signal.health)).devs[i].Health = devs[i].Health) ∧
      (∀ (pre post : List Device) (u : Device), us = pre ++ u :: post → u.ID = devs[i].ID →
        (∀ v ∈ post, v.ID ≠ devs[i].ID) →
        (ListAndWatch devs (us.map Signal.health)).devs[i].Health = u.Health) := by
  obtain ⟨h1, h2, h3, h4⟩ :=
    watchLoop_health us { devs := devs, sent := [devs], returned := false } rfl
  have hdevs : (ListAndWatch devs (us.map Signal.health)).devs
      = devs.map (fun dev => us.foldl (fun x u => setHealth u x) dev) := by
    unfold ListAndWatch; rw [h1]; exact foldl_applyHealth_nodup us devs hnd
  have hids : (ListAndWatch devs (us.map Signal.health)).devs.map Device.ID
      = devs.map Device.ID := by
    unfold ListAndWatch; rw [h1]; exact foldl_applyHealth_ids us devs
  refine ⟨h4, ?_, h3 rfl, ?_, hids, ?_⟩
  · unfold ListAndWatch; rw [h2]; simp; omega
  · have := congrArg List.length hids
    simpa using this
  · intro i hi ho
    have hget : (ListAndWatch devs (us.map Signal.health)).devs[i]
        = us.foldl (fun x u => setHealth u x) devs[i] := by
      simp only [hdevs, List.getElem_map]
    refine ⟨fun hno => ?_, fun pre post u hus hu hpost => ?_⟩
    · rw [hget, foldl_setHealth_untouched us _ hno]
    · rw [hget, hus]; exact foldl_setHealth_last pre post u _ hu hpost

/-- C1 at the scenario of the specification: devices "0" and "1", both healthy, then the updates
(1, Unhealthy), (0, Unhealthy), (1, Healthy). -/
theorem listAndWatch_latest_health_wins_witness :
    (([⟨"0", Healthy⟩, ⟨"1", Healthy⟩] : List Device).map Device.ID).Nodup ∧
    (ListAndWatch [⟨"0", Healthy⟩, ⟨"1", Healthy⟩]
      ([⟨"1", Unhealthy⟩, ⟨"0", Unhealthy⟩, ⟨"1", Healthy⟩].map Signal.health)).devs.length
      = 2 :=
  ⟨by decide,
   (listAndWatch_latest_health_wins [⟨"0", Healthy⟩, ⟨"1", Healthy⟩]
      [⟨"1", Unhealthy⟩, ⟨"0", Unhealthy⟩, ⟨"1", Healthy⟩] (by decide)).2.2.2.1⟩

/-- C3. A health update whose id occurs nowhere in the device list (duplicate ids allowed) leaves
the list unchanged; inside `ListAndWatch`, after any earlier updates `pre`, the call does not
return, the list stays as it was and the response sent for the update is the list sent just
before it. -/
theorem listAndWatch_unknown_id_ignored (devs pre : List Device) (d : Device)
    (hd : d.ID ∉ devs.map Device.ID) :
    applyHealth devs d = devs ∧
    (ListAndWatch devs (pre.map Signal.health ++ [Signal.health d])).returned = false ∧
    (ListAndWatch devs (pre.map Signal.health ++ [Signal.health d])).devs
      = (ListAndWatch devs (pre.map Signal.health)).devs ∧
    (ListAndWatch devs (pre.map Signal.health ++ [Signal.health d])).sent
      = (ListAndWatch devs (pre.map Signal.health)).sent
        ++ [(ListAndWatch devs (pre.map Signal.health)).devs] ∧
    (ListAndWatch devs (pre.map Signal.health)).sent.getLast?
      = some (ListAndWatch devs (pre.map Signal.health)).devs := by
  obtain ⟨h1, -, h3, -⟩ :=
    watchLoop_health pre { devs := devs, sent := [devs], returned := false } rfl
  have hids : d.ID ∉ (ListAndWatch devs (pre.map Signal.health)).devs.map Device.ID := by
    unfold ListAndWatch; rw [h1, foldl_applyHealth_ids]; exact hd
  have hstep := applyHealth_of_not_mem _ d hids
  refine ⟨applyHealth_of_not_mem devs d hd, ?_, ?_, ?_, h3 rfl⟩
  · unfold ListAndWatch; rw [watchLoop_append_health]
  · show (watchLoop _ _).devs = _
    rw [watchLoop_append_health]; exact hstep
  · show (watchLoop _ _).sent = _
    rw [watchLoop_append_health]
    show _ ++ [applyHealth (ListAndWatch devs (pre.map Signal.health)).devs d] = _
    rw [hstep]; rfl

/-- C3 at the scenario of the specification: after (1, Unhealthy), a signal for the unknown id
"9" changes nothing. -/
theorem listAndWatch_unknown_id_ignored_witness :
    "9" ∉ ([⟨"0", Healthy⟩, ⟨"1", Healthy⟩] : List Device).map Device.ID ∧
    (ListAndWatch [⟨"0", Healthy⟩, ⟨"1", Healthy⟩]
      ([⟨"1", Unhealthy⟩].map Signal.health ++ [Signal.health ⟨"9", Unhealthy⟩])).devs
      = (ListAndWatch [⟨"0", Healthy⟩, ⟨"1", Healthy⟩]
          ([⟨"1", Unhealthy⟩].map Signal.health)).devs :=
  ⟨by decide,
   (listAndWatch_unknown_id_ignored [⟨"0", Healthy⟩, ⟨"1", Healthy⟩] [⟨"1", Unhealthy⟩]
      ⟨"9", Unhealthy⟩ (by decide)).2.2.1⟩

/-! ## Allocate: all grants or none -/

theorem allocateLoop_all_ok (grant : List String → Except String ContainerAllocateResponse)
    (reqs : List ContainerAllocateRequest) (acc : AllocateResponse)
    (h : ∀ req ∈ reqs, ∃ car, grant req.DevicesIDs = Except.ok car) :
    ∃ cars : List ContainerAllocateResponse,
      allocateLoop grant reqs acc
        = Except.ok { ContainerResponses := acc.ContainerResponses ++ cars } ∧
      reqs.map (fun req => grant req.DevicesIDs) = cars.map Except.ok := by
  induction reqs generalizing acc with
  | nil => exact ⟨[], by simp [allocateLoop], rfl⟩
  | cons req rest ih =>
    obtain ⟨car, hcar⟩ := h req (List.mem_cons_self _ _)
    obtain ⟨cars, h1, h2⟩ := ih { ContainerResponses := acc.ContainerResponses ++ [car] }
      (fun r hr => h r (List.mem_cons_of_mem _ hr))
    refine ⟨car :: cars, ?_, ?_⟩
    · simp only [allocateLoop, hcar, h1, List.append_assoc, List.singleton_append]
    · simp only [List.map_cons, hcar, h2]

theorem allocateLoop_first_error (grant : List String → Except String ContainerAllocateResponse)
    (pre post : List ContainerAllocateRequest) (req : ContainerAllocateRequest) (err : String)
    (acc : AllocateResponse)
    (hpre : ∀ r ∈ pre, ∃ car, grant r.DevicesIDs = Except.ok car)
    (hreq : grant req.DevicesIDs = Except.error err) :
    allocateLoop grant (pre ++ req :: post) acc = Except.error err := by
  induction pre generalizing acc with
  | nil => simp only [List.nil_append, allocateLoop, hreq]
  | cons r rest ih =>
    obtain ⟨car, hcar⟩ := hpre r (List.mem_cons_self _ _)
    simp only [List.cons_append, allocateLoop, hcar]
    exact ih _ (fun x hx => hpre x (List.mem_cons_of_mem _ hx))

theorem allocateLoop_some_error (grant : List String → Except String ContainerAllocateResponse)
    (reqs : List ContainerAllocateRequest) (acc : AllocateResponse)
    (h : ∃ req ∈ reqs, ∃ err, grant req.DevicesIDs = Except.error err) :
    ∃ err, allocateLoop grant reqs acc = Except.error err := by
  induction reqs generalizing acc with
  | nil => obtain ⟨req, hreq, -⟩ := h; cases hreq
  | cons r rest ih =>
    cases hg : grant r.DevicesIDs with
    | error e => exact ⟨e, by simp only [allocateLoop, hg]⟩
    | ok car =>
      simp only [allocateLoop, hg]
      apply ih
      obtain ⟨req, hreq, err, herr⟩ := h
      rcases List.mem_cons.1 hreq with rfl | hmem
      · rw [hg] at herr; cases herr
      · exact ⟨req, hmem, err, herr⟩

/-- C2. For a batch of K container requests and any grant function: when every grant succeeds,
`Allocate` succeeds with exactly K container responses, the i-th being the grant of the i-th
request; when some grant fails, `Allocate` returns an error and no response, and that error is
the one of the first request whose grant fails. -/
theorem allocate_all_or_nothing (grant : List String → Except String ContainerAllocateResponse)
    (request : AllocateRequest) :
    ((∀ req ∈ request.ContainerRequests, ∃ car, grant req.DevicesIDs = Except.ok car) →
      ∃ resp : AllocateResponse, Allocate grant request = Except.ok resp ∧
        resp.ContainerResponses.length = request.ContainerRequests.length ∧
        request.ContainerRequests.map (fun req => grant req.DevicesIDs)
          = resp.ContainerResponses.map Except.ok) ∧
    ((∃ req ∈ request.ContainerRequests, ∃ err, grant req.DevicesIDs = Except.error err) →
      ∃ err, Allocate grant request = Except.error err) ∧
    (∀ (pre post : List ContainerAllocateRequest) (req : ContainerAllocateRequest)
      (err : String), request.ContainerRequests = pre ++ req :: post →
      (∀ r ∈ pre, ∃ car, grant r.DevicesIDs = Except.ok car) →
      grant req.DevicesIDs = Except.error err →
      Allocate grant request = Except.error err) := by
  refine ⟨fun h => ?_, fun h => ?_, fun pre post req err hreqs hpre hreq => ?_⟩
  · obtain ⟨cars, h1, h2⟩ := allocateLoop_all_ok grant request.ContainerRequests
      { ContainerResponses := [] } h
    refine ⟨{ ContainerResponses := cars }, by simpa [Allocate] using h1, ?_, h2⟩
    have := congrArg List.length h2
    simpa using this.symm
  · exact allocateLoop_some_error grant request.ContainerRequests _ h
  · unfold Allocate; rw [hreqs]
    exact allocateLoop_first_error grant pre post req err _ hpre hreq

/-- C2 at the scenario of the specification: requests [["0"],["1"]] against the mock whose
grant for "1" fails; the whole call fails with that error. -/
theorem allocate_all_or_nothing_witness :
    mockGrant ["1"] = Except.error "grant failed" ∧
    Allocate mockGrant scenarioRequest = Except.error "grant failed" :=
  ⟨rfl,
   (allocate_all_or_nothing mockGrant scenarioRequest).2.2
      [ContainerAllocateRequest.mk ["0"]] [] (ContainerAllocateRequest.mk ["1"])
      "grant failed" rfl
      (fun r hr => by
        rw [List.mem_singleton] at hr
        subst hr
        exact ⟨_, rfl⟩)
      rfl⟩

/-! ## Decimal rendering is injective -/

theorem digitChar_value (k : Nat) (hk : k < 10) : (Nat.digitChar k).toNat - 48 = k := by
  interval_cases k <;> rfl

theorem toDigitsCore_append (fuel n : Nat) (ds : List Char) :
    Nat.toDigitsCore 10 fuel n ds = Nat.toDigitsCore 10 fuel n [] ++ ds := by
  induction fuel generalizing n ds with
  | zero => simp [Nat.toDigitsCore]
  | succ fuel ih =>
    simp only [Nat.toDigitsCore]
    split
    · simp
    · rw [ih (n / 10) (Nat.digitChar (n % 10) :: ds), ih (n / 10) [Nat.digitChar (n % 10)]]
      simp

theorem digitsValue_toDigitsCore (fuel n : Nat) (h : n < fuel) :
    digitsValue (Nat.toDigitsCore 10 fuel n []) = n := by
  induction fuel generalizing n with
  | zero => omega
  | succ fuel ih =>
    simp only [Nat.toDigitsCore]
    split
    · rename_i h0
      have hn : n % 10 = n := by omega
      simp only [digitsValue, List.foldl_cons, List.foldl_nil, Nat.zero_mul, Nat.zero_add]
      rw [digitChar_value _ (Nat.mod_lt _ (by decide)), hn]
    · rename_i h0
      rw [toDigitsCore_append]
      have hlt : n / 10 < fuel := by omega
      have hv := ih (n / 10) hlt
      unfold digitsValue at hv ⊢
      rw [List.foldl_append, hv]
      simp only [List.foldl_cons, List.foldl_nil]
      rw [digitChar_value _ (Nat.mod_lt _ (by decide))]
      omega

theorem digitsValue_repr (n : Nat) : digitsValue (toString n).data = n := by
  show digitsValue (Nat.toDigitsCore 10 (n + 1) n []) = n
  exact digitsValue_toDigitsCore (n + 1) n (Nat.lt_succ_self n)

theorem toString_nat_injective : Function.Injective (fun n : Nat => (toString n : String)) := by
  intro a b h
  have h2 : digitsValue (toString a).data = digitsValue (toString b).data := by
    simp only at h; rw [h]
  rwa [digitsValue_repr, digitsValue_repr] at h2

/-! ## The Cambricon binding -/

theorem appendDevices_eq (ids : List String) (idx : Nat) (devices : List DeviceSpec) :
    appendDevices ids idx devices
      = devices ++ (ids.enumFrom idx).map (fun p => mluSpec p.1 p.2) := by
  induction ids generalizing idx devices with
  | nil => simp [appendDevices]
  | cons id rest ih =>
    simp only [appendDevices, List.enumFrom_cons, List.map_cons]
    rw [ih]
    simp [mluSpec]

theorem mluSpec_ne_monitorSpec (j : Nat) (id : String) : mluSpec j id ≠ monitorSpec := by
  intro h
  have h1 : (mluSpec j id).HostPath = monitorSpec.HostPath := by rw [h]
  have h2 : (mluDeviceNamePrefix ++ id).data = mluMonitorDeviceName.data := congrArg String.data h1
  rw [String.data_append] at h2
  have h3 := congrArg (List.take 18) h2
  rw [List.take_left' (by decide)] at h3
  revert h3
  decide

/-- C10. For every list of requested ids and every state of the host (every answer of the glob
behind the monitor-device check), `GetContainerAllocateResponse` succeeds; the device mappings
are the monitor device (host path = container path = /dev/cambricon_ctl, permissions rw) exactly
when the check holds, followed by one mapping per requested id in request order, the j-th with
host path "/dev/cambricon_dev" ++ ids[j], container path "/dev/cambricon_dev" ++ decimal j and
permissions rw; the mounts are the single read-only mount of /usr/bin/cnmon onto itself. -/
theorem getContainerAllocateResponse_grant (glob : String → Except String (List String))
    (ids : List String) :
    ∃ r : ContainerAllocateResponse, GetContainerAllocateResponse glob ids = Except.ok r ∧
      r.Devices = (if hostDeviceExistsWithPrefix glob mluMonitorDeviceName = true
                   then [monitorSpec] else [])
                  ++ ids.enum.map (fun p => mluSpec p.1 p.2) ∧
      r.Devices.length
        = (if hostDeviceExistsWithPrefix glob mluMonitorDeviceName = true then 1 else 0)
          + ids.length ∧
      (r.Devices.head? = some monitorSpec
        ↔ hostDeviceExistsWithPrefix glob mluMonitorDeviceName = true) ∧
      (∀ (j : Nat) (hj : j < ids.length),
        r.Devices[(if hostDeviceExistsWithPrefix glob mluMonitorDeviceName = true then 1 else 0)
          + j]?
          = some { HostPath := "/dev/cambricon_dev" ++ ids[j],
                   ContainerPath := "/dev/cambricon_dev" ++ toString j,
                   Permissions := "rw" }) ∧
      r.Mounts = [{ ContainerPath := "/usr/bin/cnmon", HostPath := "/usr/bin/cnmon",
                    ReadOnly := true }] := by
  refine ⟨_, rfl, ?_, ?_, ?_, ?_, rfl⟩
  · simp only [appendDevices_eq, List.enum]
    split <;> rfl
  · simp only [appendDevices_eq]
    split <;> simp [Nat.add_comm]
  · simp only [appendDevices_eq]
    by_cases hc : hostDeviceExistsWithPrefix glob mluMonitorDeviceName = true
    · simp [hc, monitorSpec]
    · simp only [hc, if_false, List.nil_append, iff_false, Bool.false_eq_true]
      cases ids with
      | nil => simp
      | cons id rest =>
        simp only [List.enumFrom_cons, List.map_cons, List.head?_cons, Option.some.injEq]
        exact mluSpec_ne_monitorSpec 0 id
  · intro j hj
    simp only [appendDevices_eq]
    by_cases hc : hostDeviceExistsWithPrefix glob mluMonitorDeviceName = true
    · simp only [hc, if_true]
      rw [List.getElem?_append_right (by simp)]
      simp [hj, mluSpec, mluDeviceNamePrefix, List.getElem?_enumFrom]
    · simp only [hc, if_false, List.nil_append, Bool.false_eq_true]
      simp [hj, mluSpec, mluDeviceNamePrefix, List.getElem?_enumFrom]

/-! ## Enumeration at construction -/

theorem deviceInfoLoop_eq (k i : Nat) (devs : List DeviceInfo) :
    deviceInfoLoop k i devs
      = devs ++ (List.range' i k).map (fun j => ({ Id := toString j } : DeviceInfo)) := by
  induction k generalizing i devs with
  | zero => simp [deviceInfoLoop]
  | succ k ih =>
    simp only [deviceInfoLoop, List.range'_succ, List.map_cons]
    rw [ih]
    simp

theorem uintToInt_small (n : Nat) (h : n < 2 ^ 63) : (uintToInt n).toNat = n := by
  have h64 : n % 2 ^ 64 = n := Nat.mod_eq_of_lt (by omega)
  unfold uintToInt
  rw [h64, if_pos h]
  simp

/-- C9. For every device count `n` that the hardware binding reports (a C unsigned count, in
particular below 2^63 so that `int(count)` is `n`), `GetDeviceInfo` returns the ids "0", "1",
..., decimal (n-1) in that order, and `NewServer` builds exactly `n` records in that order, the
i-th with id the decimal rendering of i and health Healthy, on a server that is not started;
the advertised ids are pairwise distinct. -/
theorem newServer_enumerates_devices (n : Nat) (hn : n < 2 ^ 63) :
    GetDeviceInfo (Except.ok n)
      = Except.ok ((List.range n).map (fun i => ({ Id := toString i } : DeviceInfo))) ∧
    ∃ m : Server, NewServer none (Except.ok n) = Except.ok m ∧
      m.server = none ∧ m.stopClosed = false ∧
      m.devs.length = n ∧
      m.devs = (List.range n).map (fun i => ({ ID := toString i, Health := "Healthy" } : Device)) ∧
      (∀ (i : Nat) (hi : i < m.devs.length),
        m.devs[i] = { ID := toString i, Health := "Healthy" }) ∧
      (m.devs.map Device.ID).Nodup := by
  have hinfo : GetDeviceInfo (Except.ok n)
      = Except.ok ((List.range n).map (fun i => ({ Id := toString i } : DeviceInfo))) := by
    simp only [GetDeviceInfo, uintToInt_small n hn, deviceInfoLoop_eq, List.nil_append,
      List.range_eq_range']
  refine ⟨hinfo, ?_⟩
  have hdevs : (List.map (fun info : DeviceInfo => ({ ID := info.Id, Health := Healthy } : Device))
      ((List.range n).map (fun i => ({ Id := toString i } : DeviceInfo))))
      = (List.range n).map (fun i => ({ ID := toString i, Health := "Healthy" } : Device)) := by
    rw [List.map_map]; rfl
  refine ⟨{ devs := (List.range n).map
              (fun i => ({ ID := toString i, Health := "Healthy" } : Device)),
            server := none, stopClosed := false },
    by simp only [NewServer, hinfo, hdevs], rfl, rfl, ?_, rfl, ?_, ?_⟩
  · simp
  · intro i hi
    simp only [List.getElem_map, List.getElem_range]
  · simp only [List.map_map]
    exact (List.nodup_range n).map toString_nat_injective

/-- C9 for the two devices of the specification scenario. -/
theorem newServer_enumerates_devices_witness :
    2 < 2 ^ 63 ∧
    GetDeviceInfo (Except.ok 2) = Except.ok [{ Id := "0" }, { Id := "1" }] :=
  ⟨by decide, (newServer_enumerates_devices 2 (by decide)).1⟩

/-! ## Lifecycle: Start, Stop, Serve -/

/-- What a successful `Start` has done. -/
theorem start_ok_state (env : StartEnv) (s s1 : State) (h : Start env s = (none, s1)) :
    env.listenErr = none ∧ env.dialErr = none ∧
    s1.m = { s.m with server := some s.host.nextHandle } ∧
    s1.host = { sockFile := some s.host.nextHandle, dirWritable := true,
                serving := s.host.serving ++ [s.host.nextHandle],
                released := s.host.released, nextHandle := s.host.nextHandle + 1 } := by
  obtain ⟨⟨devs, server, stopClosed⟩, ⟨sockFile, dirWritable, serving, released, nextHandle⟩⟩ := s
  obtain ⟨listenErr, dialErr⟩ := env
  cases sockFile <;> cases dirWritable <;> cases listenErr <;> cases dialErr <;>
    simp [Start, cleanup, osRemove, netListen] at h ⊢ <;> subst h <;> simp

/-- C4. `Stop` is idempotent. On a server that was never started (`server` is nil) `Stop` returns
nil and the state is unchanged: nothing released, nothing removed, the stop channel not closed.
Whenever a `Stop` has returned, a second `Stop` right after it returns nil and leaves the state
exactly as the first left it. On a started server whose stop channel is open the first `Stop`
does return, having cleared the server, closed the channel and released the device once. -/
theorem stop_idempotent (s : State) :
    (s.m.server = none → Stop s = Outcome.returned none s) ∧
    (∀ (err : Option String) (s1 : State), Stop s = Outcome.returned err s1 →
      Stop s1 = Outcome.returned none s1) ∧
    (∀ h : Nat, s.m.server = some h → s.m.stopClosed = false →
      ∃ (err : Option String) (s1 : State), Stop s = Outcome.returned err s1 ∧
        s1.m.server = none ∧ s1.m.stopClosed = true ∧ h ∉ s1.host.serving ∧
        s1.host.released = s.host.released + 1 ∧
        Stop s1 = Outcome.returned none s1) := by
  obtain ⟨⟨devs, server, stopClosed⟩, ⟨sockFile, dirWritable, serving, released, nextHandle⟩⟩ := s
  refine ⟨?_, ?_, ?_⟩
  · intro h
    simp only at h
    subst h
    rfl
  · intro err s1 h
    cases server with
    | none =>
      simp only [Stop, Outcome.returned.injEq] at h
      rw [← h.2]; rfl
    | some hd =>
      cases stopClosed <;> simp [Stop] at h
      obtain ⟨-, rfl⟩ := h
      rfl
  · intro h hs hc
    simp only at hs hc
    subst hs hc
    cases sockFile <;> cases dirWritable <;>
      exact ⟨_, _, rfl, rfl, rfl, by simp [grpcStop, List.mem_filter], rfl, rfl⟩

/-- C4 on the never-started server and on the started server of the scenario. -/
theorem stop_idempotent_witness :
    freshState.m.server = none ∧ Stop freshState = Outcome.returned none freshState ∧
    Stop startedState = Outcome.returned none stoppedState ∧
    Stop stoppedState = Outcome.returned none stoppedState :=
  ⟨rfl, (stop_idempotent freshState).1 rfl, rfl,
   (stop_idempotent startedState).2.1 none stoppedState rfl⟩

/-- C5 as stated fails on a server that was stopped before. After a first `Serve` whose
registration failed (teardown ran, the stop channel is closed), a second `Serve` on the same
server starts again, fails to register, and `Stop` panics in `close(m.stop)`, after
`m.server.Stop()` has closed the listener and unlinked its socket: `Serve` returns no error and
the device is not released in this run (the count stays at the one release of the first run). -/
theorem serve_register_failure_after_stop_panics :
    Serve registerFails freshState
      = Outcome.returned (some "register resource openi.pcl.ac.cn/cambricon err: kubelet unreachable")
          stoppedState ∧
    (Start registerFails.start stoppedState).1 = none ∧
    registerFails.registerErr = some "kubelet unreachable" ∧
    stoppedState.host.released = 1 ∧
    Serve registerFails stoppedState
      = Outcome.panicked
          { m := { devs := stoppedState.m.devs, server := none, stopClosed := true },
            host := { sockFile := none, dirWritable := true, serving := [], released := 1,
                      nextHandle := 2 } } ∧
    (∀ (err : Option String) (s2 : State),
      Serve registerFails stoppedState ≠ Outcome.returned err s2) := by
  refine ⟨by decide, by decide, by decide, by decide, by decide, ?_⟩
  intro err s2 h
  have hp : Serve registerFails stoppedState
      = Outcome.panicked
          { m := { devs := stoppedState.m.devs, server := none, stopClosed := true },
            host := { sockFile := none, dirWritable := true, serving := [], released := 1,
                      nextHandle := 2 } } := by decide
  rw [hp] at h
  cases h

/-- C5, amended. For every run of `Serve` on a server whose stop channel has not been closed
yet, in which `Start` succeeds and `Register` fails with `e`, `Serve` returns the registration
error and teardown has run first: the gRPC server started by this run is no longer serving and
`server` is nil, the stop channel is closed, the device has been released once, and the endpoint
path does not exist on the filesystem. -/
theorem serve_register_failure_tears_down (env : ServeEnv) (s s1 : State) (e : String)
    (hopen : s.m.stopClosed = false) (hstart : Start env.start s = (none, s1))
    (hreg : env.registerErr = some e) :
    ∃ s2 : State,
      Serve env s
        = Outcome.returned (some ("register resource openi.pcl.ac.cn/cambricon err: " ++ e)) s2 ∧
      s1.m.server = some s.host.nextHandle ∧
      s.host.nextHandle ∈ s1.host.serving ∧
      s.host.nextHandle ∉ s2.host.serving ∧
      s2.m.server = none ∧
      s2.m.stopClosed = true ∧
      s2.host.released = s.host.released + 1 ∧
      s2.host.sockFile = none := by
  obtain ⟨-, -, hm, hh⟩ := start_ok_state env.start s s1 hstart
  obtain ⟨m1, h1⟩ := s1
  simp only at hm hh
  subst hm hh
  refine ⟨{ m := { s.m with server := none, stopClosed := true },
            host := { sockFile := none, dirWritable := true,
                      serving := (s.host.serving ++ [s.host.nextHandle]).filter
                        (fun x => x ≠ s.host.nextHandle),
                      released := s.host.released + 1,
                      nextHandle := s.host.nextHandle + 1 } }, ?_, rfl, ?_, ?_, rfl, rfl, rfl, rfl⟩
  · simp only [Serve, hstart, hreg, Stop, grpcStop, hopen, cleanup, osRemove]
    simp
  · simp
  · simp [List.mem_filter]

/-- C5 amended, on the fresh server of the scenario. -/
theorem serve_register_failure_tears_down_witness :
    freshState.m.stopClosed = false ∧
    Start registerFails.start freshState = (none, startedState) ∧
    registerFails.registerErr = some "kubelet unreachable" ∧
    ∃ s2 : State,
      Serve registerFails freshState
        = Outcome.returned
            (some ("register resource openi.pcl.ac.cn/cambricon err: " ++ "kubelet unreachable"))
            s2 ∧
      startedState.m.server = some freshState.host.nextHandle ∧
      freshState.host.nextHandle ∈ startedState.host.serving ∧
      freshState.host.nextHandle ∉ s2.host.serving ∧
      s2.m.server = none ∧
      s2.m.stopClosed = true ∧
      s2.host.released = freshState.host.released + 1 ∧
      s2.host.sockFile = none :=
  ⟨rfl, rfl, rfl,
   serve_register_failure_tears_down registerFails freshState startedState "kubelet unreachable"
     rfl rfl rfl⟩

/-- C6 at the failing input: on the fresh server the endpoint is bound, serving begins and the
self-dial times out. `Start` returns the dial error with nothing unwound: `server` still holds
the gRPC server 0, which is still serving, and the socket file is still on the filesystem;
`Serve` wraps the error and returns in that same state, without calling `Stop`. -/
theorem start_dial_failure_not_unwound :
    Start dialTimesOut freshState = (some "context deadline exceeded", startedState) ∧
    Serve { start := dialTimesOut, registerErr := none } freshState
      = Outcome.returned (some "start device plugin err: context deadline exceeded")
          startedState ∧
    startedState.m.server = some 0 ∧
    0 ∈ startedState.host.serving ∧
    startedState.host.sockFile = some 0 := by
  decide

/-- C7 as stated fails: on the started server of the scenario (first `Start` succeeded, no
`Stop`), a second `Start` returns nil, changes the state, has removed the socket file of
listener 0 and bound listener 1 at the same path, while gRPC server 0 is still serving. -/
theorem second_start_binds_second_listener :
    Start okStart freshState = (none, startedState) ∧
    (Start okStart startedState).1 = none ∧
    (Start okStart startedState).2 ≠ startedState ∧
    startedState.host.sockFile = some 0 ∧
    (Start okStart startedState).2.host.sockFile = some 1 ∧
    (Start okStart startedState).2.host.serving = [0, 1] ∧
    (Start okStart startedState).2.m.server = some 1 := by
  decide

/-- A state left by a successful `Start` is a started one, in a writable directory. -/
theorem start_ok_started (env0 : StartEnv) (s0 s1 : State) (h : Start env0 s0 = (none, s1)) :
    Started s1 s0.host.nextHandle ∧ s1.host.dirWritable = true := by
  obtain ⟨-, -, hm, hh⟩ := start_ok_state env0 s0 s1 h
  refine ⟨⟨?_, ?_, ?_, ?_⟩, ?_⟩
  · rw [hm]
  · rw [hh]; simp
  · rw [hh]
  · rw [hh]; exact Nat.lt_succ_self _
  · rw [hh]

/-- C7, amended. Every state left by a successful `Start` is started (server handle set, that
gRPC server serving, its socket file at the endpoint path). On a started server on which `Stop`
has not been called, a second `Start` runs the whole start sequence again. When the removal of
the socket file fails it returns an error and the state is unchanged. Otherwise it removes the
socket file of the live endpoint, so the state does change: when `net.Listen` fails it returns
that error, the endpoint file gone and the first gRPC server still serving under the unchanged
handle; when `net.Listen` succeeds it binds a new listener at the same path and makes `server`
the new gRPC server while the first one is still serving, and returns the self-dial error if
there is one and nil if not. So the second `Start` returns nil exactly when removal,
`net.Listen` and self-dial all succeed. -/
theorem second_start_rebinds (env1 : StartEnv) (s1 : State) (h : Nat) :
    (∀ (env0 : StartEnv) (s0 : State), Start env0 s0 = (none, s1) →
      Started s1 s0.host.nextHandle ∧ s1.host.dirWritable = true) ∧
    (Started s1 h →
      (s1.host.dirWritable = false → ∃ err, Start env1 s1 = (some err, s1)) ∧
      (s1.host.dirWritable = true →
        (Start env1 s1).2 ≠ s1 ∧
        (∀ e, env1.listenErr = some e →
          Start env1 s1 = (some e, { s1 with host := { s1.host with sockFile := none } }) ∧
          (Start env1 s1).2.host.sockFile = none ∧
          (Start env1 s1).2.m.server = some h ∧
          h ∈ (Start env1 s1).2.host.serving) ∧
        (env1.listenErr = none →
          Start env1 s1
            = (env1.dialErr,
               { m := { s1.m with server := some s1.host.nextHandle },
                 host := { s1.host with
                             sockFile := some s1.host.nextHandle,
                             serving := s1.host.serving ++ [s1.host.nextHandle],
                             nextHandle := s1.host.nextHandle + 1 } }) ∧
          h ≠ s1.host.nextHandle ∧
          (Start env1 s1).2.host.sockFile = some s1.host.nextHandle ∧
          (Start env1 s1).2.m.server = some s1.host.nextHandle ∧
          h ∈ (Start env1 s1).2.host.serving ∧
          s1.host.nextHandle ∈ (Start env1 s1).2.host.serving)) ∧
      ((Start env1 s1).1 = none
        ↔ (s1.host.dirWritable = true ∧ env1.listenErr = none ∧ env1.dialErr = none))) := by
  refine ⟨fun env0 s0 h0 => start_ok_started env0 s0 s1 h0, ?_⟩
  rintro ⟨hsrv, hserving, hsock, hlt⟩
  obtain ⟨⟨devs, server, stopClosed⟩, ⟨sockFile, dirWritable, serving, released, nextHandle⟩⟩ := s1
  obtain ⟨listenErr, dialErr⟩ := env1
  simp only at hsrv hserving hsock hlt
  subst hsrv hsock
  have hne : h ≠ nextHandle := Nat.ne_of_lt hlt
  refine ⟨?_, ?_, ?_⟩
  · intro hw
    simp only at hw
    subst hw
    exact ⟨"remove: permission denied", by simp [Start, cleanup, osRemove]⟩
  · intro hw
    simp only at hw
    subst hw
    refine ⟨?_, ?_, ?_⟩
    · cases listenErr <;> cases dialErr <;>
        simp [Start, cleanup, osRemove, netListen, hne]
    · intro e he
      simp only at he
      subst he
      simp [Start, cleanup, osRemove, netListen, hserving]
    · intro hl
      simp only at hl
      subst hl
      refine ⟨?_, hne, ?_, ?_, ?_, ?_⟩ <;>
        cases dialErr <;> simp [Start, cleanup, osRemove, netListen, hserving]
  · cases dirWritable <;> cases listenErr <;> cases dialErr <;>
      simp [Start, cleanup, osRemove, netListen]

/-- C7 amended, on the scenario: the started server is started, and a second `Start` whose
`net.Listen` fails has already removed the socket file of the live endpoint. -/
theorem second_start_rebinds_witness :
    Start okStart freshState = (none, startedState) ∧
    Started startedState 0 ∧
    startedState.host.dirWritable = true ∧
    Start { listenErr := some "too many open files", dialErr := none } startedState
      = (some "too many open files",
         { startedState with host := { startedState.host with sockFile := none } }) ∧
    Start okStart startedState
      = (none,
         { m := { startedState.m with server := some 1 },
           host := { startedState.host with
                       sockFile := some 1, serving := [0, 1], nextHandle := 2 } }) :=
  ⟨rfl, ⟨rfl, by decide, rfl, by decide⟩, rfl,
   ((((second_start_rebinds { listenErr := some "too many open files", dialErr := none }
        startedState 0).2 ⟨rfl, by decide, rfl, by decide⟩).2.1 rfl).2.1
      "too many open files" rfl).1,
   rfl⟩

/-! ## Several watchers on one health channel -/

theorem sendOn_length (resp : List Device) (i : Nat) (sts : List (List (List Device))) :
    (sendOn resp i sts).length = sts.length := by
  induction sts generalizing i with
  | nil => cases i <;> rfl
  | cons st rest ih => cases i <;> simp [sendOn, ih]

theorem sendOn_self (resp : List Device) (i : Nat) (sts : List (List (List Device)))
    (hi : i < sts.length) : (sendOn resp i sts)[i]? = some (sts[i] ++ [resp]) := by
  induction sts generalizing i with
  | nil => simp at hi
  | cons st rest ih =>
    cases i with
    | zero => simp [sendOn]
    | succ k =>
      simp only [sendOn, List.getElem?_cons_succ, List.getElem_cons_succ]
      exact ih k (by simpa using hi)

theorem sendOn_other (resp : List Device) (i j : Nat) (sts : List (List (List Device)))
    (hij : j ≠ i) : (sendOn resp i sts)[j]? = sts[j]? := by
  induction sts generalizing i j with
  | nil => cases i <;> rfl
  | cons st rest ih =>
    cases i with
    | zero =>
      cases j with
      | zero => exact absurd rfl hij
      | succ l => simp [sendOn]
    | succ k =>
      cases j with
      | zero => simp [sendOn]
      | succ l =>
        simp only [sendOn, List.getElem?_cons_succ]
        exact ih k l (fun e => hij (by rw [e]))

/-- C8 as stated fails for two open streams: whichever of the two receives the health change
(1, Unhealthy), the other stream sends nothing for it, so no receiver makes both streams
re-emit the list. -/
theorem health_change_reaches_one_stream_only :
    twoStreams.streams.length = 2 ∧
    (receiveHealth 0 ⟨"1", Unhealthy⟩ twoStreams).streams[1]? = twoStreams.streams[1]? ∧
    (receiveHealth 1 ⟨"1", Unhealthy⟩ twoStreams).streams[0]? = twoStreams.streams[0]? ∧
    ¬ ∃ i, i < 2 ∧ ∀ j, j < 2 →
        ((receiveHealth i ⟨"1", Unhealthy⟩ twoStreams).streams.getD j []).length
          = (twoStreams.streams.getD j []).length + 1 := by
  decide

/-- C8, amended. With any number of open `ListAndWatch` streams, a health change taken from the
health channel by the stream at position `i` is applied to the shared device list, stream `i`
sends the full updated list as its next response, and every other open stream sends nothing for
that change; with a single open stream that stream re-emits on every change. -/
theorem health_change_received_by_one (h : Hub) (i : Nat) (d : Device)
    (hi : i < h.streams.length) :
    (receiveHealth i d h).devs = applyHealth h.devs d ∧
    (receiveHealth i d h).streams.length = h.streams.length ∧
    (receiveHealth i d h).streams[i]? = some (h.streams[i] ++ [(receiveHealth i d h).devs]) ∧
    (∀ j, j ≠ i → (receiveHealth i d h).streams[j]? = h.streams[j]?) ∧
    (h.streams.length = 1 → ∀ j (hj : j < h.streams.length),
      (receiveHealth i d h).streams[j]? = some (h.streams[j] ++ [applyHealth h.devs d])) := by
  refine ⟨rfl, sendOn_length _ _ _, sendOn_self _ _ _ hi, fun j hj => sendOn_other _ _ _ _ hj,
    fun h1 j hj => ?_⟩
  have hj0 : j = i := by omega
  subst hj0
  exact sendOn_self _ _ _ hi

/-- C8 amended, on the two streams of the scenario with the second one receiving. -/
theorem health_change_received_by_one_witness :
    1 < twoStreams.streams.length ∧
    (receiveHealth 1 ⟨"1", Unhealthy⟩ twoStreams).devs
      = [⟨"0", Healthy⟩, ⟨"1", Unhealthy⟩] :=
  ⟨by decide,
   (health_change_received_by_one twoStreams 1 ⟨"1", Unhealthy⟩ (by decide)).1.trans
     (by decide)⟩

end DevicePlugin
